import Mathlib

/-
  Shallow embedding of the CBIUtil worker-pool subsystem
  (src/src/compubrite/ThreadPool.cpp, src/include/compubrite/ThreadPool.h,
  src/include/compubrite/TaskQueue.h) and proofs about the claims on it.

  Modelling conventions:
  * `std::function<void()>` (TaskQueue::Task) is modelled by `Task`:
    `nonNull` is `operator bool` of the std::function (an empty / default
    constructed function is `nonNull = false`); `behavior` records what a
    single invocation of the callable does (return normally or throw).
  * `std::thread` handles are `WorkerHandle`s; `joinableFlag` models
    `std::thread::joinable()`.
  * The pool's fields `_threads`, `_tasks`, `_active` become the record
    fields `workers`, `queue`, `activeF` of `ThreadPool`.
  * A blocking condition-variable loop is modelled one iteration at a time:
    `svcIter` is the body of `ThreadPool::svc`'s `while (true)` loop from
    the point where `_cv.wait` has returned.  The lock that serialises the
    loop body makes each iteration atomic, so interleavings of several
    workers are sequences of `svcIter` steps on the shared state.
-/

namespace CBIUtil

/-- A C++ exception value thrown by a task body, abstracted to a code. -/
structure Exc where
  code : Nat
deriving DecidableEq, Repr

/-- What one invocation of a task's callable does: return normally, or
throw an exception. -/
inductive TaskBehavior where
  | returns
  | throwsExc (e : Exc)
deriving DecidableEq, Repr

/-- Model of `TaskQueue::Task` = `std::function<void()>`.  `id` distinguishes
submissions, `nonNull` is the function's `operator bool` (false for a
default-constructed, target-less function), `behavior` is what a call does. -/
structure Task where
  id : Nat
  nonNull : Bool := true
  behavior : TaskBehavior := .returns
deriving DecidableEq, Repr

/-- A task with a callable target that runs to completion normally. -/
def plainTask (n : Nat) : Task :=
  { id := n }

/-- Predicate `Task.plain t`: holds when `t` has a target and does not throw. -/
def Task.plain (t : Task) : Bool :=
  t.nonNull && (match t.behavior with
                | .returns => true
                | .throwsExc _ => false)

/-- A `std::thread` handle stored in `ThreadPool::_threads`.  `joinableFlag`
models `joinable()`: true until the thread has been joined. -/
structure WorkerHandle where
  wid : Nat
  joinableFlag : Bool
deriving DecidableEq, Repr

/-- State of a `CompuBrite::ThreadPool`:
`workers` is `_threads` (std::list of thread handles),
`queue` is `_tasks` (the FIFO task list, head = front),
`activeF` is `_active` (the std::atomic of bool activity flag). -/
structure ThreadPool where
  workers : List WorkerHandle
  queue : List Task
  activeF : Bool
deriving DecidableEq, Repr

/-- Default construction `ThreadPool()`: no threads, empty queue,
`_active{false}` (ThreadPool.h line 154). -/
def initialPool : ThreadPool :=
  { workers := [], queue := [], activeF := false }

/-- Model of `ThreadPool::shutdown` (ThreadPool.cpp lines 11-17): the body is
`_active = false; _cv.notify_all();`.  The notify has no effect on the
modelled state; note the body acquires no lock. -/
def ThreadPool.shutdown (p : ThreadPool) : ThreadPool :=
  { p with activeF := false }

/-- Model of `ThreadPool::activate` (ThreadPool.cpp lines 31-40): under the lock,
emplace `nThreads` new threads each running `svc`, then set
`_active = true` unconditionally. -/
def ThreadPool.activate (p : ThreadPool) (nThreads : Nat) : ThreadPool :=
  { p with
    workers := p.workers ++
      (List.range nThreads).map (fun k => { wid := p.workers.length + k, joinableFlag := true }),
    activeF := true }

/-- Model of `ThreadPool::addTask` (ThreadPool.cpp lines 63-70): under the lock,
`_tasks.emplace_back(std::move(task)); _cv.notify_all();`.  Appends to the
back of the queue regardless of the activity flag. -/
def ThreadPool.addTask (p : ThreadPool) (t : Task) : ThreadPool :=
  { p with queue := p.queue ++ [t] }

/-- Model of `ThreadPool::wait` (ThreadPool.cpp lines 19-29): for each thread in
`_threads`, notify all and `join()` it if joinable.  Joined handles stay in
`_threads`; only their joinable state changes. -/
def ThreadPool.wait (p : ThreadPool) : ThreadPool :=
  { p with workers := p.workers.map (fun w => { w with joinableFlag := false }) }

/-- Diagnostic `ThreadPool::threads` (ThreadPool.h line 126): `_threads.size()`. -/
def ThreadPool.threads (p : ThreadPool) : Nat :=
  p.workers.length

/-- Diagnostic `ThreadPool::tasks` (ThreadPool.h line 129): `_tasks.size()`. -/
def ThreadPool.tasks (p : ThreadPool) : Nat :=
  p.queue.length

/-- Diagnostic `ThreadPool::active` (ThreadPool.h line 123): reads `_active`. -/
def ThreadPool.active (p : ThreadPool) : Bool :=
  p.activeF

/-- Outcome of one iteration of the worker loop `ThreadPool::svc`:
`exited` = the worker returned from `svc` (thread ends);
`looped` = queue empty, `continue` back to the wait;
`invoked t` = `t` was popped and `t()` ran to completion;
`skipped t` = `t` was popped but `if (task)` was false, so it was not called;
`uncaught t e` = `t` was popped, `t()` threw `e`, and since `svc` has no
handler the exception escapes the loop (the worker does not keep looping). -/
inductive SvcOutcome where
  | exited
  | looped
  | invoked (t : Task)
  | skipped (t : Task)
  | uncaught (t : Task) (e : Exc)
deriving DecidableEq, Repr

/-- One iteration of `ThreadPool::svc`'s loop (ThreadPool.cpp lines 45-60),
entered when `_cv.wait(lock, ...)` has returned:
`if (!_active) return;` — exit whenever the flag is down, before looking at
the queue; `if (_tasks.empty()) continue;`; otherwise pop the front task,
unlock, and run it through `if (task) task();`.  There is no try/catch
around `task()` in the source, so a throwing task yields `uncaught`. -/
def ThreadPool.svcIter (p : ThreadPool) : SvcOutcome × ThreadPool :=
  if !p.activeF then (.exited, p)
  else
    match p.queue with
    | [] => (.looped, p)
    | t :: rest =>
      let p' := { p with queue := rest }
      if t.nonNull then
        match t.behavior with
        | .returns => (.invoked t, p')
        | .throwsExc e => (.uncaught t e, p')
      else (.skipped t, p')

/-- The task removed from the queue by an iteration, if any (the pop at
ThreadPool.cpp lines 54-55 happens in the `invoked`, `skipped` and
`uncaught` outcomes alike). -/
def SvcOutcome.popped : SvcOutcome → Option Task
  | .invoked t => some t
  | .skipped t => some t
  | .uncaught t _ => some t
  | _ => none

/-- The sequence of tasks removed from the queue by `n` successive worker
iterations on the shared pool state (each iteration is atomic because the
loop body runs under the pool's lock). -/
def ThreadPool.popLog (p : ThreadPool) : Nat → List Task
  | 0 => []
  | n + 1 =>
    match ((p.svcIter).1).popped with
    | some t => t :: ((p.svcIter).2).popLog n
    | none => ((p.svcIter).2).popLog n

/-- An event in a concurrent history of the pool: some worker performs one
(lock-serialised) iteration of `svc`, or some submitter thread calls
`addTask`.  Both kinds of step are atomic sections under `_mutex`. -/
inductive PoolEvent where
  | workStep
  | submit (t : Task)
deriving DecidableEq, Repr

/-- Effect of one event on the pool state. -/
def poolStep (p : ThreadPool) : PoolEvent → ThreadPool
  | .workStep => (p.svcIter).2
  | .submit t => p.addTask t

/-- Run a history of events from a state. -/
def runEvents (p : ThreadPool) : List PoolEvent → ThreadPool
  | [] => p
  | e :: evs => runEvents (poolStep p e) evs

/-- The tasks actually invoked (popped, non-null, ran to completion) during
a history, in execution order. -/
def invokedLog (p : ThreadPool) : List PoolEvent → List Task
  | [] => []
  | .workStep :: evs =>
    (match (p.svcIter).1 with
     | .invoked t => [t]
     | _ => []) ++ invokedLog (p.svcIter).2 evs
  | .submit t :: evs => invokedLog (p.addTask t) evs

/-- The tasks submitted during a history, in submission order. -/
def submitsOf : List PoolEvent → List Task
  | [] => []
  | .workStep :: evs => submitsOf evs
  | .submit t :: evs => t :: submitsOf evs

/-- State of a `std::promise<Ret>`: freshly constructed (no value, no
exception), fulfilled with a value, or fulfilled with a captured
exception. -/
inductive PromiseState (Ret : Type) where
  | unfulfilled
  | value (r : Ret)
  | failed (e : Exc)
deriving DecidableEq, Repr

/-- A `std::promise<Ret>` as its observable one-shot state. -/
structure Promise (Ret : Type) where
  state : PromiseState Ret
deriving DecidableEq, Repr

/-- The body of the lambda built by `TaskQueue::addTask<Ret>`
(TaskQueue.h lines 81-89): call `work()`; on normal return `r`,
`promise.set_value(r)`; on any exception, `promise.set_exception(...)` with
the current exception.  `work`'s single call is modelled by its outcome:
`Except.ok r` for a normal return of `r`, `Except.error e` for a throw. -/
def wrappedTask (work : Except Exc Ret) (p : Promise Ret) : Promise Ret :=
  match work with
  | .ok r => { p with state := .value r }
  | .error e => { p with state := .failed e }

/-- The promise objects involved in one call of `TaskQueue::addTask<Ret>`
(TaskQueue.h lines 77-92), tracked with their identities, as they stand
after `return promise;` (line 91) has executed.  The call declares a
function-local `std::promise<Ret> promise;` (line 80); the lambda built at
lines 81-89 captures that local `promise` BY REFERENCE (`[work, &promise]`)
and is enqueued (line 90); then the local is returned by value.  C++
permits but does not require copy elision (NRVO) on that return:
with elision (`elided = true`) the local object and the object received by
the caller are one and the same, so the captured reference stays valid as
long as the caller keeps the promise; without elision the caller's object
is move-constructed from the local and the local (now empty) is destroyed
when the call returns, so the captured reference dangles
(`localAlive = false`).  `localProm` is the state of the local object's
storage, `returnedProm` the state of the caller's object. -/
structure RetCallState (Ret : Type) where
  elided : Bool
  localAlive : Bool
  localProm : PromiseState Ret
  returnedProm : PromiseState Ret
deriving DecidableEq, Repr

/-- The call state right after `TaskQueue::addTask<Ret>` returns: both the
promise the caller received and the local's storage are unfulfilled (the
task has not run yet); the local object survives the return only in the
elided (NRVO) execution. -/
def afterReturn (Ret : Type) (elided : Bool) : RetCallState Ret :=
  { elided := elided, localAlive := elided,
    localProm := PromiseState.unfulfilled,
    returnedProm := PromiseState.unfulfilled }

/-- A worker executes the enqueued wrapping task: the lambda writes
`work`'s outcome through its captured reference to the function-local
`promise`.  In the elided execution that reference denotes the caller's
object, which gets fulfilled as intended.  In the non-elided execution the
reference dangles (the local was moved from and destroyed at return), the
write is undefined behavior — and no defined effect of it reaches the
object the caller holds, whose state is left as it was. -/
def runWrapped (work : Except Exc Ret) (s : RetCallState Ret) : RetCallState Ret :=
  if s.elided then
    { s with returnedProm := (wrappedTask work { state := s.returnedProm }).state }
  else if s.localAlive then
    { s with localProm := (wrappedTask work { state := s.localProm }).state }
  else
    s

/-- Primitive actions of the pool's member functions, at the granularity
needed to talk about the lock discipline.  `lockAcquire`/`lockRelease`
bracket a `std::unique_lock` acquired via `this->lock()`; `setActive`
writes `_active`; `spawnWorker` emplaces one new thread into `_threads`;
`pushTask` appends to `_tasks`; `notifyAll` signals `_cv`. -/
inductive Stmt where
  | lockAcquire
  | lockRelease
  | setActive (b : Bool)
  | spawnWorker
  | pushTask (t : Task)
  | notifyAll
deriving DecidableEq, Repr

/-- Statement sequence of `ThreadPool::shutdown` (ThreadPool.cpp lines
11-17): `_active = false; _cv.notify_all();`.  The body contains no
`this->lock()` call. -/
def shutdownStmts : List Stmt :=
  [.setActive false, .notifyAll]

/-- Statement sequence of `ThreadPool::activate` (ThreadPool.cpp lines
31-40): `auto lock = this->lock();` on entry, `nThreads` emplacements, then
`_active = true;`; the RAII lock is released when the function returns. -/
def activateStmts (nThreads : Nat) : List Stmt :=
  .lockAcquire :: (List.replicate nThreads .spawnWorker ++ [.setActive true, .lockRelease])

/-- Statement sequence of `ThreadPool::addTask` (ThreadPool.cpp lines
63-70): `auto lock = this->lock(); _tasks.emplace_back(...);
_cv.notify_all();`, lock released on return. -/
def addTaskStmts (t : Task) : List Stmt :=
  [.lockAcquire, .pushTask t, .notifyAll, .lockRelease]

/-- Checks that every write to `_active` in the statement list happens
while the lock is held (`d` is the lock depth already held on entry). -/
def activeWritesLocked : List Stmt → Nat → Bool
  | [], _ => true
  | .lockAcquire :: rest, d => activeWritesLocked rest (d + 1)
  | .lockRelease :: rest, d => activeWritesLocked rest (d - 1)
  | .setActive _ :: rest, d => decide (0 < d) && activeWritesLocked rest d
  | _ :: rest, d => activeWritesLocked rest d

/-- Checks that every mutation of `_threads` in the statement list happens
while the lock is held. -/
def workerWritesLocked : List Stmt → Nat → Bool
  | [], _ => true
  | .lockAcquire :: rest, d => workerWritesLocked rest (d + 1)
  | .lockRelease :: rest, d => workerWritesLocked rest (d - 1)
  | .spawnWorker :: rest, d => decide (0 < d) && workerWritesLocked rest d
  | _ :: rest, d => workerWritesLocked rest d

/-- Interpreter for the statement lists over the pool state, tying them to
the direct definitions above (`notifyAll` and the lock statements do not
change the modelled state). -/
def execStmt (p : ThreadPool) : Stmt → ThreadPool
  | .lockAcquire => p
  | .lockRelease => p
  | .setActive b => { p with activeF := b }
  | .spawnWorker =>
      { p with workers := p.workers ++ [{ wid := p.workers.length, joinableFlag := true }] }
  | .pushTask t => { p with queue := p.queue ++ [t] }
  | .notifyAll => p

/-- Run a statement list. -/
def execStmts (p : ThreadPool) : List Stmt → ThreadPool
  | [] => p
  | s :: rest => execStmts (execStmt p s) rest

/-! Basic lemmas about the worker-loop iteration -/

theorem svcIter_inactive (p : ThreadPool) (h : p.activeF = false) :
    p.svcIter = (SvcOutcome.exited, p) := by
  simp [ThreadPool.svcIter, h]

theorem svcIter_active_nil (p : ThreadPool) (hA : p.activeF = true)
    (hq : p.queue = []) : p.svcIter = (SvcOutcome.looped, p) := by
  simp [ThreadPool.svcIter, hA, hq]

theorem svcIter_active_plain (p : ThreadPool) (t : Task) (rest : List Task)
    (hA : p.activeF = true) (hq : p.queue = t :: rest) (ht : t.plain = true) :
    p.svcIter = (SvcOutcome.invoked t, { p with queue := rest }) := by
  have h2 : t.nonNull = true ∧
      (match t.behavior with
       | TaskBehavior.returns => true
       | TaskBehavior.throwsExc _ => false) = true := by
    simpa [Task.plain, Bool.and_eq_true] using ht
  have hb : t.behavior = TaskBehavior.returns := by
    rcases hbe : t.behavior with _ | e
    · rfl
    · exfalso
      have := h2.2
      rw [hbe] at this
      simp at this
  simp [ThreadPool.svcIter, hA, hq, h2.1, hb]

theorem svcIter_active_null (p : ThreadPool) (t : Task) (rest : List Task)
    (hA : p.activeF = true) (hq : p.queue = t :: rest) (hn : t.nonNull = false) :
    p.svcIter = (SvcOutcome.skipped t, { p with queue := rest }) := by
  simp [ThreadPool.svcIter, hA, hq, hn]

theorem svcIter_active_throwing (p : ThreadPool) (t : Task) (e : Exc)
    (rest : List Task) (hA : p.activeF = true) (hq : p.queue = t :: rest)
    (hn : t.nonNull = true) (hb : t.behavior = TaskBehavior.throwsExc e) :
    p.svcIter = (SvcOutcome.uncaught t e, { p with queue := rest }) := by
  simp [ThreadPool.svcIter, hA, hq, hn, hb]

/-- Every iteration on an active pool with a non-empty queue pops the front
task and leaves the rest of the queue, whatever the task does. -/
theorem svcIter_active_cons (p : ThreadPool) (t : Task) (rest : List Task)
    (hA : p.activeF = true) (hq : p.queue = t :: rest) :
    ((p.svcIter).1).popped = some t ∧ (p.svcIter).2 = { p with queue := rest } := by
  rcases hn : t.nonNull with _ | _
  · rw [svcIter_active_null p t rest hA hq hn]
    exact ⟨rfl, rfl⟩
  · rcases hb : t.behavior with _ | e
    · have ht : t.plain = true := by simp [Task.plain, hn, hb]
      rw [svcIter_active_plain p t rest hA hq ht]
      exact ⟨rfl, rfl⟩
    · rw [svcIter_active_throwing p t e rest hA hq hn hb]
      exact ⟨rfl, rfl⟩

/-- An iteration never changes the activity flag. -/
theorem svcIter_activeF (p : ThreadPool) : ((p.svcIter).2).activeF = p.activeF := by
  rcases hA : p.activeF with _ | _
  · rw [svcIter_inactive p hA]
    exact hA
  · rcases hq : p.queue with _ | ⟨t, rest⟩
    · rw [svcIter_active_nil p hA hq]
      exact hA
    · rw [(svcIter_active_cons p t rest hA hq).2]
      exact hA

/-- The dequeue log of `n` iterations on an active pool whose queue holds
exactly the list `qs` is `qs` itself when `n = qs.length`: pops proceed
front to back in queue order. -/
theorem popLog_eq_queue : ∀ (qs : List Task) (p : ThreadPool),
    p.activeF = true → p.queue = qs → p.popLog qs.length = qs := by
  intro qs
  induction qs with
  | nil => intro p _ _; rfl
  | cons t rest ih =>
    intro p hA hq
    obtain ⟨hpop, hstate⟩ := svcIter_active_cons p t rest hA hq
    show ThreadPool.popLog p (rest.length + 1) = t :: rest
    rw [ThreadPool.popLog, hpop, hstate]
    exact congrArg (t :: ·) (ih { p with queue := rest } (by simpa using hA) rfl)

/-- Folding `addTask` over a list appends the list to the queue and leaves
the other fields alone. -/
theorem foldl_addTask (ts : List Task) : ∀ (p : ThreadPool),
    (ts.foldl ThreadPool.addTask p).queue = p.queue ++ ts ∧
    (ts.foldl ThreadPool.addTask p).activeF = p.activeF ∧
    (ts.foldl ThreadPool.addTask p).workers = p.workers := by
  induction ts with
  | nil => intro p; simp
  | cons t rest ih =>
    intro p
    have := ih (p.addTask t)
    simpa [ThreadPool.addTask, List.append_assoc] using this

/-- Claim C1: tasks submitted with `addTask` before any is dequeued are
dequeued by the worker loop in exactly submission order: `addTask` appends
to the back of `_tasks` and each `svc` iteration pops the front, so from an
active pool with an empty queue, submitting `ts` and then running
`ts.length` worker iterations removes exactly `ts` front to back — the k-th
task submitted is the k-th task dequeued. -/
theorem C1_fifo_order (p : ThreadPool) (ts : List Task)
    (hA : p.activeF = true) (hq : p.queue = []) :
    (ts.foldl ThreadPool.addTask p).popLog ts.length = ts := by
  obtain ⟨hqueue, hactive, -⟩ := foldl_addTask ts p
  exact popLog_eq_queue ts _ (by rw [hactive, hA])
    (by rw [hqueue, hq, List.nil_append])

/-- Witness for C1 at a concrete pool and task list. -/
theorem C1_fifo_order_witness :
    ((initialPool.activate 1).activeF = true ∧ (initialPool.activate 1).queue = []) ∧
    ([plainTask 1, plainTask 2, plainTask 3].foldl ThreadPool.addTask
        (initialPool.activate 1)).popLog 3 = [plainTask 1, plainTask 2, plainTask 3] :=
  ⟨⟨by decide, by decide⟩,
    C1_fifo_order (initialPool.activate 1) [plainTask 1, plainTask 2, plainTask 3]
      (by decide) (by decide)⟩

/-- Claim C2 counterexample: an inactive pool with a still-queued task.
The woken worker's first check is `if (!_active) return;`, so the
iteration exits even though the queue is non-empty — the claim that a
worker exits only when the queue is empty AND the pool is inactive is
false, and the queued task is not drained. -/
theorem C2_cex :
    ((ThreadPool.svcIter { workers := [], queue := [plainTask 0], activeF := false }).1
        = SvcOutcome.exited) ∧
    ({ workers := [], queue := [plainTask 0], activeF := false } : ThreadPool).queue ≠ [] := by
  decide

/-- Claim C2 as amended: a worker iteration exits exactly when the pool is
inactive, regardless of the queue's contents; when it exits, the pool state
(including any still-queued tasks) is left untouched, so tasks queued at
shutdown are abandoned, not drained. -/
theorem C2_exit_on_inactive (p : ThreadPool) :
    ((p.svcIter).1 = SvcOutcome.exited ↔ p.activeF = false) ∧
    (p.activeF = false → (p.svcIter).2 = p ∧ (p.svcIter).2.queue = p.queue) := by
  constructor
  · constructor
    · intro hex
      rcases hA : p.activeF with _ | _
      · rfl
      · exfalso
        rcases hq : p.queue with _ | ⟨t, rest⟩
        · rw [svcIter_active_nil p hA hq] at hex
          exact absurd hex (by simp)
        · have := (svcIter_active_cons p t rest hA hq).1
          rw [hex] at this
          exact absurd this (by simp [SvcOutcome.popped])
    · intro hA
      rw [svcIter_inactive p hA]
  · intro hA
    rw [svcIter_inactive p hA]
    exact ⟨rfl, rfl⟩

/-- Witness for the amended C2 at a concrete inactive pool with one queued
task: the iteration reports exit and leaves the task in the queue. -/
theorem C2_exit_on_inactive_witness :
    ((ThreadPool.svcIter { workers := [], queue := [plainTask 0], activeF := false }).2
        = { workers := [], queue := [plainTask 0], activeF := false }) ∧
    ((ThreadPool.svcIter { workers := [], queue := [plainTask 0], activeF := false }).1
        = SvcOutcome.exited) :=
  ⟨((C2_exit_on_inactive
      { workers := [], queue := [plainTask 0], activeF := false }).2 rfl).1,
   (C2_exit_on_inactive
      { workers := [], queue := [plainTask 0], activeF := false }).1.mpr rfl⟩

/-- Claim C4 counterexample: `activate(1)` then `shutdown()` then `wait()`
leaves `threads() = 1`, not 0 — `wait` joins each thread but never removes
the joined handles from `_threads`, and `threads()` returns
`_threads.size()`. -/
theorem C4_cex :
    ¬ ((((initialPool.activate 1).shutdown).wait).threads = 0) := by
  decide

/-- Claim C4 as amended: after `shutdown()` followed by `wait()` every
worker thread has been joined (no handle is joinable any more, so every
worker has exited), but `threads()` still reports the number of handles in
`_threads`, which is unchanged by shutdown and wait — it is zero only if no
thread was ever spawned. -/
theorem C4_wait_joins_all (p : ThreadPool) :
    (((p.shutdown).wait).workers.all fun w => !w.joinableFlag) = true ∧
    ((p.shutdown).wait).threads = p.threads := by
  constructor
  · simp [ThreadPool.shutdown, ThreadPool.wait, List.all_eq_true]
  · simp [ThreadPool.shutdown, ThreadPool.wait, ThreadPool.threads]

/-- Claim C5 counterexample: an active pool whose front task throws.  The
iteration's outcome is `uncaught`: `svc` has no try/catch, so the exception
escapes the worker loop instead of being caught — the worker does not keep
looping (in C++ an exception escaping the thread function terminates the
program via std::terminate). -/
theorem C5_cex :
    (ThreadPool.svcIter
        { workers := [],
          queue := [{ id := 7, behavior := .throwsExc ⟨3⟩ }],
          activeF := true }).1
      = SvcOutcome.uncaught { id := 7, behavior := .throwsExc ⟨3⟩ } ⟨3⟩ := by
  decide

/-- Claim C5 as amended: the worker loop has no exception handler, so for
every task whose body throws, the iteration pops the task and the exception
escapes the loop uncaught (outcome `uncaught`), terminating the worker
rather than letting it continue looping. -/
theorem C5_uncaught_escape (p : ThreadPool) (t : Task) (e : Exc)
    (rest : List Task) (hA : p.activeF = true) (hq : p.queue = t :: rest)
    (hn : t.nonNull = true) (hb : t.behavior = TaskBehavior.throwsExc e) :
    (p.svcIter).1 = SvcOutcome.uncaught t e ∧
    ¬ ((p.svcIter).1 = SvcOutcome.invoked t) ∧
    ¬ ((p.svcIter).1 = SvcOutcome.looped) := by
  rw [svcIter_active_throwing p t e rest hA hq hn hb]
  exact ⟨rfl, by simp, by simp⟩

/-- Witness for the amended C5 at a concrete pool and throwing task. -/
theorem C5_uncaught_escape_witness :
    (ThreadPool.svcIter
        { workers := [],
          queue := [{ id := 7, behavior := .throwsExc ⟨3⟩ }],
          activeF := true }).1
      = SvcOutcome.uncaught { id := 7, behavior := .throwsExc ⟨3⟩ } ⟨3⟩ :=
  (C5_uncaught_escape
      { workers := [],
        queue := [{ id := 7, behavior := .throwsExc ⟨3⟩ }],
        activeF := true }
      { id := 7, behavior := .throwsExc ⟨3⟩ } ⟨3⟩ [] rfl rfl rfl rfl).1

/-- Claim C6 counterexample: the statement sequence of
`ThreadPool::shutdown` writes `_active` at lock depth 0 — the body
`_active = false; _cv.notify_all();` contains no `this->lock()` call, so
the activity flag is mutated without holding the pool's lock (it is an
std::atomic, written lock-free). -/
theorem C6_cex : activeWritesLocked shutdownStmts 0 = false := by
  decide

/-- Lock-depth checks ignore a run of `spawnWorker` statements as far as
`_active` writes are concerned. -/
theorem activeWritesLocked_replicate_spawn (n : Nat) :
    ∀ (rest : List Stmt) (d : Nat),
      activeWritesLocked (List.replicate n Stmt.spawnWorker ++ rest) d =
        activeWritesLocked rest d := by
  induction n with
  | zero => intro rest d; rfl
  | succ m ih =>
    intro rest d
    rw [List.replicate_succ, List.cons_append]
    exact ih rest d

/-- A run of `spawnWorker` statements at positive lock depth passes the
`_threads` lock-discipline check. -/
theorem workerWritesLocked_replicate_spawn (n : Nat) :
    ∀ (rest : List Stmt) (d : Nat), 0 < d →
      workerWritesLocked (List.replicate n Stmt.spawnWorker ++ rest) d =
        workerWritesLocked rest d := by
  induction n with
  | zero => intro rest d _; rfl
  | succ m ih =>
    intro rest d hd
    rw [List.replicate_succ, List.cons_append]
    show (decide (0 < d) && workerWritesLocked
      (List.replicate m Stmt.spawnWorker ++ rest) d) = workerWritesLocked rest d
    rw [ih rest d hd]
    simp [hd]

/-- Claim C6 as amended: `activate` mutates the activity flag and the
worker-handle collection only while holding the pool's lock, but
`shutdown` writes the (atomic) activity flag without acquiring the lock at
all. -/
theorem C6_lock_discipline (n : Nat) :
    activeWritesLocked (activateStmts n) 0 = true ∧
    workerWritesLocked (activateStmts n) 0 = true ∧
    activeWritesLocked shutdownStmts 0 = false := by
  refine ⟨?_, ?_, rfl⟩
  · show activeWritesLocked
      (List.replicate n Stmt.spawnWorker ++ [Stmt.setActive true, Stmt.lockRelease]) 1 = true
    rw [activeWritesLocked_replicate_spawn]
    rfl
  · show workerWritesLocked
      (List.replicate n Stmt.spawnWorker ++ [Stmt.setActive true, Stmt.lockRelease]) 1 = true
    rw [workerWritesLocked_replicate_spawn n _ 1 (by decide)]
    rfl

/-- Claim C7 counterexample: on a freshly constructed (inactive) pool,
`activate(0)` flips `active()` from false to true — the loop body runs zero
times but `_active = true;` executes unconditionally, so `activate(0)` is
not a no-op on the observable state. -/
theorem C7_cex :
    (initialPool.activate 0).active = true ∧ initialPool.active = false := by
  decide

/-- Claim C7 as amended: `activate(0)` spawns no threads and leaves the
worker-handle collection and the task queue unchanged, but it always sets
the activity flag, so `active()` reads true afterwards; it is a no-op only
on a pool that is already active. -/
theorem C7_activate_zero (p : ThreadPool) :
    (p.activate 0).workers = p.workers ∧
    (p.activate 0).queue = p.queue ∧
    (p.activate 0).active = true := by
  refine ⟨?_, rfl, rfl⟩
  simp [ThreadPool.activate]

/-! Concurrent histories and exactly-once execution -/

/-- The main trace invariant: over any history of lock-serialised worker
iterations and submissions on an active pool whose tasks are all plain
(non-null, non-throwing), the log of invoked tasks followed by the tasks
still queued equals the initial queue followed by the submissions, as
lists (order included). -/
theorem invokedLog_spec : ∀ (evs : List PoolEvent) (p : ThreadPool),
    p.activeF = true → p.queue.all Task.plain = true →
    (submitsOf evs).all Task.plain = true →
    invokedLog p evs ++ (runEvents p evs).queue = p.queue ++ submitsOf evs := by
  intro evs
  induction evs with
  | nil =>
    intro p _ _ _
    simp [invokedLog, runEvents, submitsOf]
  | cons e evs ih =>
    intro p hA hq hs
    cases e with
    | workStep =>
      rcases hqe : p.queue with _ | ⟨t, rest⟩
      · have hsvc := svcIter_active_nil p hA hqe
        have hthis := ih p hA hq (by simpa [submitsOf] using hs)
        rw [hqe] at hthis
        simp only [invokedLog, runEvents, poolStep, submitsOf, hsvc]
        simpa using hthis
      · have ht : t.plain = true ∧ rest.all Task.plain = true := by
          rw [hqe] at hq
          simpa [List.all_cons, Bool.and_eq_true] using hq
        have hsvc := svcIter_active_plain p t rest hA hqe ht.1
        have hthis := ih { p with queue := rest } (by simpa using hA)
          (by simpa using ht.2) (by simpa [submitsOf] using hs)
        simp only [invokedLog, runEvents, poolStep, submitsOf, hsvc]
        simpa [List.append_assoc] using congrArg (t :: ·) hthis
    | submit t =>
      have hts : t.plain = true ∧ (submitsOf evs).all Task.plain = true := by
        simpa [submitsOf, List.all_cons, Bool.and_eq_true] using hs
      have hthis := ih (p.addTask t) (by simpa [ThreadPool.addTask] using hA)
        (by simp [ThreadPool.addTask, List.all_append, hq, hts.1])
        hts.2
      simp only [invokedLog, runEvents, poolStep, submitsOf]
      simpa [ThreadPool.addTask, List.append_assoc] using hthis

/-- Claim C8: under any interleaving of lock-serialised worker iterations
and concurrent submissions on an active pool of plain tasks, the invoked
log plus the remaining queue is exactly the initial queue plus the
submissions; hence no task is ever run more often than it was submitted
(no double execution, each dequeue removes it exactly once), and when the
queue has drained, every submitted task has been executed exactly as often
as it was submitted — exactly once for distinct tasks, with no silent
drop. -/
theorem C8_exactly_once (p : ThreadPool) (evs : List PoolEvent)
    (hA : p.activeF = true) (hq : p.queue.all Task.plain = true)
    (hs : (submitsOf evs).all Task.plain = true) :
    invokedLog p evs ++ (runEvents p evs).queue = p.queue ++ submitsOf evs ∧
    (∀ t : Task, (invokedLog p evs).count t ≤ (p.queue ++ submitsOf evs).count t) ∧
    ((runEvents p evs).queue = [] →
      invokedLog p evs = p.queue ++ submitsOf evs) := by
  have h := invokedLog_spec evs p hA hq hs
  refine ⟨h, ?_, ?_⟩
  · intro t
    have hc := congrArg (List.count t) h
    rw [List.count_append] at hc
    omega
  · intro h0
    rw [h0, List.append_nil] at h
    exact h

/-- Witness for C8: two tasks queued, one submitted mid-history, three
worker steps; the log comes out as the three tasks in order and the queue
drains. -/
theorem C8_exactly_once_witness :
    (({ workers := [], queue := [plainTask 1, plainTask 2], activeF := true }
        : ThreadPool).activeF = true ∧
      ({ workers := [], queue := [plainTask 1, plainTask 2], activeF := true }
        : ThreadPool).queue.all Task.plain = true ∧
      (submitsOf [PoolEvent.workStep, PoolEvent.submit (plainTask 3),
        PoolEvent.workStep, PoolEvent.workStep]).all Task.plain = true) ∧
    (invokedLog
        { workers := [], queue := [plainTask 1, plainTask 2], activeF := true }
        [PoolEvent.workStep, PoolEvent.submit (plainTask 3),
          PoolEvent.workStep, PoolEvent.workStep] ++
      (runEvents
        { workers := [], queue := [plainTask 1, plainTask 2], activeF := true }
        [PoolEvent.workStep, PoolEvent.submit (plainTask 3),
          PoolEvent.workStep, PoolEvent.workStep]).queue =
      ({ workers := [], queue := [plainTask 1, plainTask 2], activeF := true }
        : ThreadPool).queue ++
        submitsOf [PoolEvent.workStep, PoolEvent.submit (plainTask 3),
          PoolEvent.workStep, PoolEvent.workStep]) :=
  ⟨⟨by decide, by decide, by decide⟩,
    (C8_exactly_once
      { workers := [], queue := [plainTask 1, plainTask 2], activeF := true }
      [PoolEvent.workStep, PoolEvent.submit (plainTask 3),
        PoolEvent.workStep, PoolEvent.workStep]
      (by decide) (by decide) (by decide)).1⟩

/-- Claim C3 evaluated at its failing input (a work function returning
45): the wrapping lambda of `addTask<Ret>` captures the function-local
`promise` by reference, but the function returns that promise by value.
In the executions the C++ standard permits where `return promise;` is not
elided, the local is moved from and destroyed at return, the lambda's
reference dangles, and when a worker later runs the task the returned
handle is never fulfilled — it stays unfulfilled instead of resolving to
45.  Only the non-guaranteed NRVO execution (third conjunct) fulfills the
returned handle as the claim, the header documentation and the
TaskWithReturnValue test describe, so the code is wrong: its correctness
depends on an optimization the language does not promise. -/
theorem C3_dangling_promise :
    (runWrapped (Except.ok 45) (afterReturn Nat false)).returnedProm
        = PromiseState.unfulfilled ∧
    (runWrapped (Except.ok 45) (afterReturn Nat false)).returnedProm
        ≠ PromiseState.value 45 ∧
    (runWrapped (Except.ok 45) (afterReturn Nat true)).returnedProm
        = PromiseState.value 45 := by
  decide

/-- Claim C9: a task submitted to the freshly constructed (inactive) pool
is durably enqueued — `addTask` appends it while `active()` is still
false — and after a later `activate(1)` the first worker iteration
dequeues and invokes exactly that task, leaving the queue empty:
pre-activation submissions are never lost. -/
theorem C9_preactivation_durable (t : Task) (ht : t.plain = true) :
    (initialPool.addTask t).queue = [t] ∧
    (initialPool.addTask t).active = false ∧
    (((initialPool.addTask t).activate 1).svcIter).1 = SvcOutcome.invoked t ∧
    ((((initialPool.addTask t).activate 1).svcIter).2).queue = [] := by
  have h := svcIter_active_plain ((initialPool.addTask t).activate 1) t [] rfl rfl ht
  refine ⟨rfl, rfl, ?_, ?_⟩
  · rw [h]
  · rw [h]

/-- Witness for C9 at a concrete plain task. -/
theorem C9_preactivation_durable_witness :
    (plainTask 5).plain = true ∧
    (((initialPool.addTask (plainTask 5)).activate 1).svcIter).1
      = SvcOutcome.invoked (plainTask 5) :=
  ⟨by decide, (C9_preactivation_durable (plainTask 5) (by decide)).2.2.1⟩

/-- Claim C10: a dequeued empty (target-less) task is never invoked: the
worker pops it, `if (task)` is false so the call is skipped (no
bad-function-call exception is raised), and the loop continues with the
rest of the queue. -/
theorem C10_null_task_skipped (p : ThreadPool) (t : Task) (rest : List Task)
    (hA : p.activeF = true) (hq : p.queue = t :: rest)
    (hn : t.nonNull = false) :
    p.svcIter = (SvcOutcome.skipped t, { p with queue := rest }) ∧
    (∀ e : Exc, (p.svcIter).1 ≠ SvcOutcome.uncaught t e) ∧
    (p.svcIter).1 ≠ SvcOutcome.invoked t ∧
    (p.svcIter).1 ≠ SvcOutcome.exited := by
  have h := svcIter_active_null p t rest hA hq hn
  rw [h]
  exact ⟨rfl, fun e => by simp, by simp, by simp⟩

/-- Witness for C10 at a concrete empty task. -/
theorem C10_null_task_skipped_witness :
    ThreadPool.svcIter
        { workers := [], queue := [{ id := 9, nonNull := false }], activeF := true }
      = (SvcOutcome.skipped { id := 9, nonNull := false },
          { workers := [], queue := [], activeF := true }) :=
  (C10_null_task_skipped
    { workers := [], queue := [{ id := 9, nonNull := false }], activeF := true }
    { id := 9, nonNull := false } [] rfl rfl rfl).1

/-! Consistency of the statement-level model with the direct one -/

theorem execStmts_shutdown (p : ThreadPool) :
    execStmts p shutdownStmts = p.shutdown := rfl

theorem execStmts_addTask (p : ThreadPool) (t : Task) :
    execStmts p (addTaskStmts t) = p.addTask t := rfl

theorem execStmts_replicate_spawn : ∀ (n : Nat) (p : ThreadPool) (rest : List Stmt),
    execStmts p (List.replicate n Stmt.spawnWorker ++ rest) =
      execStmts
        { p with workers := p.workers ++ (List.range n).map (fun k => { wid := p.workers.length + k, joinableFlag := true }) }
        rest := by
  intro n
  induction n with
  | zero =>
    intro p rest
    simp
  | succ m ih =>
    intro p rest
    rw [List.replicate_succ', List.append_assoc, List.singleton_append,
      ih p (Stmt.spawnWorker :: rest)]
    show execStmts (execStmt _ Stmt.spawnWorker) rest = _
    congr 1
    simp [execStmt, List.range_succ, List.append_assoc]

theorem execStmts_activate (p : ThreadPool) (n : Nat) :
    execStmts p (activateStmts n) = p.activate n := by
  show execStmts (execStmt p Stmt.lockAcquire)
      (List.replicate n Stmt.spawnWorker ++ [Stmt.setActive true, Stmt.lockRelease]) = _
  rw [show execStmt p Stmt.lockAcquire = p from rfl, execStmts_replicate_spawn]
  rfl

end CBIUtil
